import Mathlib

/-!
Shallow embedding of the Econet_RAG request gateway (src/app.py).

The gateway exposes two endpoints, POST /ask and POST /feedback, both guarded by
the dependency get_api_key.  All substantive work is delegated to two external
collaborators: rag (retrieval-augmented generation) and submit_feedback
(persistence).  We model:

  * dynamic dictionary values as the inductive Value (strings and integers,
    with Python truthiness Value.isTruthy);
  * the cookie session restricted to its one key, conversation_id, as
    Session := Option Value (none models an absent key);
  * collaborator calls as explicit outcomes: Except String AnswerData for rag
    (error carries the raised exception text) and Except String FeedbackResult
    for submit_feedback;
  * HTTPException / generic exceptions as PyExn, and the try/except structure
    of process_feedback as a body producing Except PyExn plus a boundary
    translator implementing "except HTTPException: raise / except Exception:
    generic 500";
  * whether and with which arguments the persistence collaborator was invoked
    as the call field of FeedbackOutcome.
-/

/-- Dynamic (JSON-like) values carried in the request/response dictionaries
of app.py: strings and numbers. -/
inductive Value where
  | str (s : String)
  | int (n : Int)
  deriving DecidableEq, Repr

/-- Python truthiness of a dictionary value: the empty string and zero are
falsy, everything else is truthy. -/
def Value.isTruthy : Value → Bool
  | .str s => !(s == "")
  | .int n => !(n == 0)

/-- The per-client session store restricted to the single key the gateway
uses, conversation_id; none models a session without the key. -/
abbrev Session := Option Value

/-- request.session.get applied to the key conversation_id (app.py line 80). -/
def sessionGet (s : Session) : Option Value := s

/-- Result dictionary returned by the external rag collaborator
(app.py lines 57 and 64-71). -/
structure AnswerData where
  id : Value
  answer : Value
  relevance : Value
  response_time : Value
  total_tokens : Value
  openai_cost : Value
  deriving DecidableEq, Repr

/-- Result dictionary returned by the external submit_feedback collaborator
(app.py lines 90-95). -/
structure FeedbackResult where
  status : Value
  message : Value
  deriving DecidableEq, Repr

/-- A Python exception as seen by the handlers: either a fastapi HTTPException
carrying a status code and a detail, or any other exception carrying its
message text. -/
inductive PyExn where
  | http (status : Nat) (detail : Value)
  | other (msg : String)
  deriving DecidableEq, Repr

/-- An HTTP response produced by the gateway: a 200 with a JSON dictionary
body, or an error status with a detail field. -/
inductive HResponse where
  | ok (body : List (String × Value))
  | err (status : Nat) (detail : Value)
  deriving DecidableEq, Repr

/-- How the framework renders an exception escaping a handler or dependency:
an HTTPException becomes its own status and detail; any other exception
becomes a 500 Internal Server Error. -/
def exnToResponse : PyExn → HResponse
  | .http st d => .err st d
  | .other _ => .err 500 (.str "Internal Server Error")

/-- os.getenv applied to API_KEY with the literal fallback from app.py
line 47: the environment value when set, otherwise the default. -/
def expectedApiKey (env : Option String) : String := env.getD "your-api-key"

/-- get_api_key (app.py lines 46-49): accept when the X-API-Key header is
absent or equals the expected key, otherwise raise HTTPException 401
with detail Invalid API Key. -/
def get_api_key (expected : String) (apiKey : Option String) :
    Except PyExn (Option String) :=
  if apiKey = none ∨ apiKey = some expected then .ok apiKey
  else .error (.http 401 (.str "Invalid API Key"))

/-- ask_question (app.py lines 51-74), with the rag call outcome passed
explicitly.  On success the conversation id is stored into the session and
the six-field body is returned, renaming openai_cost to estimated_cost; any
exception is caught and mapped to a fixed 500, leaving the session as it was
at the raise point (the write at line 62 happens only after rag returns). -/
def ask_question (s : Session) (ragResult : Except String AnswerData) :
    Session × HResponse :=
  match ragResult with
  | .error _ => (s, .err 500 (.str "Error processing your question"))
  | .ok d =>
      (some d.id,
        .ok [("conversation_id", d.id), ("answer", d.answer),
             ("relevance", d.relevance), ("response_time", d.response_time),
             ("total_tokens", d.total_tokens), ("estimated_cost", d.openai_cost)])

/-- The try-block of process_feedback (app.py lines 79-95): returns the
argument pair handed to submit_feedback when that call is reached (none
otherwise), together with either the success body or the exception raised.
The session check at line 81 is Python falsiness of session.get, the value
check at line 86 is membership in the list with -1 and 1, and a non-success
collaborator status raises HTTPException 500 carrying the collaborator
message verbatim. -/
def process_feedback_body (s : Session) (fb : Int)
    (sf : Except String FeedbackResult) :
    Option (Value × Int) × Except PyExn (List (String × Value)) :=
  match sessionGet s with
  | none => (none, .error (.http 400 (.str "No active conversation found")))
  | some cid =>
      if cid.isTruthy = false then
        (none, .error (.http 400 (.str "No active conversation found")))
      else if fb ∉ ([-1, 1] : List Int) then
        (none, .error (.http 400 (.str "Invalid feedback value. Must be -1 or 1")))
      else
        match sf with
        | .error m => (some (cid, fb), .error (.other m))
        | .ok r =>
            if r.status = .str "success" then
              (some (cid, fb),
               .ok [("message", .str "Feedback received and saved successfully")])
            else
              (some (cid, fb), .error (.http 500 r.message))

/-- The except-clauses of process_feedback (app.py lines 96-100): an
HTTPException is re-raised unchanged, any other exception is replaced by a
fixed generic 500. -/
def feedback_boundary : Except PyExn (List (String × Value)) → HResponse
  | .ok b => .ok b
  | .error (.http st d) => .err st d
  | .error (.other _) => .err 500 (.str "Error processing your feedback")

/-- The observable outcome of one /feedback handler run: the argument pair
passed to the persistence collaborator, if it was invoked at all, and the
HTTP response. -/
structure FeedbackOutcome where
  call : Option (Value × Int)
  response : HResponse
  deriving DecidableEq, Repr

/-- process_feedback (app.py lines 76-100): the body wrapped in the exception
boundary.  The handler never writes the session, so the session component is
returned unchanged. -/
def process_feedback (s : Session) (fb : Int)
    (sf : Except String FeedbackResult) : Session × FeedbackOutcome :=
  (s, ⟨(process_feedback_body s fb sf).1,
       feedback_boundary (process_feedback_body s fb sf).2⟩)

/-- A full request to POST /ask: the get_api_key dependency runs first; if it
raises, the framework renders the exception and the handler body never runs. -/
def handle_ask (env hdr : Option String) (s : Session)
    (ragResult : Except String AnswerData) : Session × HResponse :=
  match get_api_key (expectedApiKey env) hdr with
  | .error e => (s, exnToResponse e)
  | .ok _ => ask_question s ragResult

/-- A full request to POST /feedback: the get_api_key dependency runs first;
if it raises, the persistence collaborator is never invoked. -/
def handle_feedback (env hdr : Option String) (s : Session) (fb : Int)
    (sf : Except String FeedbackResult) : Session × FeedbackOutcome :=
  match get_api_key (expectedApiKey env) hdr with
  | .error e => (s, ⟨none, exnToResponse e⟩)
  | .ok _ => process_feedback s fb sf

deriving instance DecidableEq for Except

/-- One client request together with the outcomes of the external
collaborator calls it triggers. -/
inductive Event where
  | ask (hdr : Option String) (ragResult : Except String AnswerData)
  | feedback (hdr : Option String) (fb : Int) (sf : Except String FeedbackResult)
  deriving DecidableEq, Repr

/-- The session after serving one event. -/
def stepSession (env : Option String) (s : Session) (e : Event) : Session :=
  match e with
  | .ask hdr rr => (handle_ask env hdr s rr).1
  | .feedback hdr fb sf => (handle_feedback env hdr s fb sf).1

/-- The session reached from the empty session (no cookie yet) after a
sequence of requests. -/
def runTrace (env : Option String) (es : List Event) : Session :=
  es.foldl (stepSession env) none

/-- A concrete rag result used to instantiate theorems at a sample input. -/
def sampleAnswer : AnswerData :=
  ⟨Value.str "conv-1", Value.str "forty-two", Value.str "RELEVANT",
   Value.int 3, Value.int 100, Value.int 1⟩

/-- The /feedback request never changes the session, whatever the outcome. -/
theorem handle_feedback_fst (env hdr : Option String) (s : Session) (fb : Int)
    (sf : Except String FeedbackResult) : (handle_feedback env hdr s fb sf).1 = s := by
  unfold handle_feedback
  cases get_api_key (expectedApiKey env) hdr with
  | error e => rfl
  | ok k => rfl

/-- An /ask request either leaves the session unchanged (auth failure or rag
raising) or stores the id of a successful rag result. -/
theorem handle_ask_fst (env hdr : Option String) (s : Session)
    (rr : Except String AnswerData) :
    (handle_ask env hdr s rr).1 = s ∨
      ∃ d, rr = Except.ok d ∧ (handle_ask env hdr s rr).1 = some d.id := by
  unfold handle_ask
  cases get_api_key (expectedApiKey env) hdr with
  | error e => left; rfl
  | ok k =>
      cases rr with
      | error m => left; rfl
      | ok d => right; exact ⟨d, rfl, rfl⟩

/-- Invariant of the session automaton: starting anywhere, a trace either
leaves the session at its start value or ends with the id stored by some
successful /ask event of the trace. -/
theorem foldl_step_invariant (env : Option String) (es : List Event) :
    ∀ s : Session,
      es.foldl (stepSession env) s = s ∨
        ∃ hdr d, Event.ask hdr (Except.ok d) ∈ es ∧
          es.foldl (stepSession env) s = some d.id := by
  induction es with
  | nil => intro s; left; rfl
  | cons e es ih =>
      intro s
      have hstep : (e :: es).foldl (stepSession env) s =
          es.foldl (stepSession env) (stepSession env s e) := rfl
      rcases ih (stepSession env s e) with h | ⟨hdr, d, hmem, h⟩
      · cases e with
        | ask hdr rr =>
            rcases handle_ask_fst env hdr s rr with h2 | ⟨d, hrr, h2⟩
            · left
              rw [hstep, h]
              exact h2
            · right
              refine ⟨hdr, d, ?_, ?_⟩
              · rw [hrr]; exact List.mem_cons_self _ _
              · rw [hstep, h]; exact h2
        | feedback hdr fb sf =>
            left
            rw [hstep, h]
            exact handle_feedback_fst env hdr s fb sf
      · right
        exact ⟨hdr, d, List.mem_cons_of_mem _ hmem, by rw [hstep]; exact h⟩

/-- The argument pair passed to the persistence collaborator, characterised:
it is invoked exactly when the session value is truthy and the feedback value
is -1 or 1, and then receives that session value and that feedback value. -/
theorem process_feedback_call_eq (s : Session) (fb : Int)
    (sf : Except String FeedbackResult) :
    (process_feedback s fb sf).2.call =
      match s with
      | none => none
      | some cid =>
          if cid.isTruthy = false then none
          else if fb ∉ ([-1, 1] : List Int) then none
          else some (cid, fb) := by
  show (process_feedback_body s fb sf).1 = _
  unfold process_feedback_body
  cases s with
  | none => rfl
  | some v =>
      by_cases ht : v.isTruthy = false
      · simp [sessionGet, ht]
      · by_cases hm : fb ∉ ([-1, 1] : List Int)
        · simp [sessionGet, ht, hm]
        · have hor : fb = -1 ∨ fb = 1 := by simpa using not_not.mp hm
          cases sf with
          | error m => rcases hor with h | h <;> subst h <;> simp [sessionGet, ht]
          | ok r =>
              by_cases hs : r.status = Value.str "success"
              · rcases hor with h | h <;> subst h <;> simp [sessionGet, ht, hs]
              · rcases hor with h | h <;> subst h <;> simp [sessionGet, ht, hs]

/-- C1: for every request to /ask or /feedback, a present X-API-Key header
differing from the configured expected key (environment API_KEY with the
literal fallback default) is rejected with status 401 and fixed detail
Invalid API Key; an absent header, or one equal to the expected key, passes
authentication and the handler runs. -/
theorem C1_api_key_gate (env hdr : Option String) (s : Session)
    (rr : Except String AnswerData) (fb : Int) (sf : Except String FeedbackResult) :
    ((∃ k, hdr = some k ∧ k ≠ expectedApiKey env) →
        handle_ask env hdr s rr = (s, HResponse.err 401 (Value.str "Invalid API Key")) ∧
        handle_feedback env hdr s fb sf =
          (s, ⟨none, HResponse.err 401 (Value.str "Invalid API Key")⟩)) ∧
    ((hdr = none ∨ hdr = some (expectedApiKey env)) →
        handle_ask env hdr s rr = ask_question s rr ∧
        handle_feedback env hdr s fb sf = process_feedback s fb sf) := by
  constructor
  · rintro ⟨k, rfl, hk⟩
    have hg : get_api_key (expectedApiKey env) (some k) =
        Except.error (PyExn.http 401 (Value.str "Invalid API Key")) := by
      unfold get_api_key
      rw [if_neg]
      rintro (h | h)
      · exact Option.noConfusion h
      · exact hk (Option.some.inj h)
    constructor
    · unfold handle_ask; rw [hg]; rfl
    · unfold handle_feedback; rw [hg]; rfl
  · intro h
    have hg : get_api_key (expectedApiKey env) hdr = Except.ok hdr := by
      unfold get_api_key
      rw [if_pos h]
    constructor
    · unfold handle_ask; rw [hg]
    · unfold handle_feedback; rw [hg]

/-- C1 witness: a mismatched key is rejected with 401 and the empty header
lets the handler run, at concrete inputs. -/
theorem C1_api_key_gate_witness :
    handle_ask none (some "wrong") none (Except.ok sampleAnswer) =
      (none, HResponse.err 401 (Value.str "Invalid API Key")) ∧
    handle_ask none none none (Except.ok sampleAnswer) =
      ask_question none (Except.ok sampleAnswer) := by
  constructor
  · exact ((C1_api_key_gate none (some "wrong") none (Except.ok sampleAnswer) 1
      (Except.ok ⟨Value.str "success", Value.str "ok"⟩)).1
      ⟨"wrong", rfl, by decide⟩).1
  · exact ((C1_api_key_gate none none none (Except.ok sampleAnswer) 1
      (Except.ok ⟨Value.str "success", Value.str "ok"⟩)).2 (Or.inl rfl)).1

/-- C2: from the empty session, the persistence collaborator can only be
reached by a /feedback request if some prior successful /ask event ran in
the trace; and on a session with no conversation id the handler fails with
400 No active conversation found, independently of the feedback value and
without invoking the collaborator. -/
theorem C2_feedback_never_cold (env : Option String) (es : List Event) (fb : Int)
    (sf : Except String FeedbackResult) :
    ((process_feedback (runTrace env es) fb sf).2.call ≠ none →
        ∃ hdr d, Event.ask hdr (Except.ok d) ∈ es) ∧
    (∀ fb' : Int, ∀ sf' : Except String FeedbackResult,
        process_feedback (none : Session) fb' sf' =
          (none, ⟨none, HResponse.err 400 (Value.str "No active conversation found")⟩)) := by
  constructor
  · intro hcall
    rcases foldl_step_invariant env es none with h | ⟨hdr, d, hmem, h2⟩
    · exact absurd (by rw [show runTrace env es = none from h]; rfl) hcall
    · exact ⟨hdr, d, hmem⟩
  · intro fb' sf'
    rfl

/-- C2 witness: after one successful /ask event, a feedback call does reach
the collaborator, and the trace indeed contains a successful ask. -/
theorem C2_feedback_never_cold_witness :
    ∃ hdr d, Event.ask hdr (Except.ok d) ∈
      ([Event.ask none (Except.ok sampleAnswer)] : List Event) :=
  (C2_feedback_never_cold none [Event.ask none (Except.ok sampleAnswer)] 1
    (Except.ok ⟨Value.str "success", Value.str "ok"⟩)).1 (by decide)

/-- C3: a successful /ask responds 200 with exactly the six keys
conversation_id, answer, relevance, response_time, total_tokens and
estimated_cost, the last holding the collaborator openai_cost and all other
fields forwarded verbatim from the rag result. -/
theorem C3_ask_success_response (s : Session) (d : AnswerData) :
    (ask_question s (Except.ok d)).2 =
      HResponse.ok [("conversation_id", d.id), ("answer", d.answer),
        ("relevance", d.relevance), ("response_time", d.response_time),
        ("total_tokens", d.total_tokens), ("estimated_cost", d.openai_cost)] ∧
    ∃ body, (ask_question s (Except.ok d)).2 = HResponse.ok body ∧
      body.lookup "conversation_id" = some d.id ∧
      body.lookup "answer" = some d.answer ∧
      body.lookup "relevance" = some d.relevance ∧
      body.lookup "response_time" = some d.response_time ∧
      body.lookup "total_tokens" = some d.total_tokens ∧
      body.lookup "estimated_cost" = some d.openai_cost ∧
      body.map Prod.fst = ["conversation_id", "answer", "relevance",
        "response_time", "total_tokens", "estimated_cost"] :=
  ⟨rfl, _, rfl, rfl, rfl, rfl, rfl, rfl, rfl, rfl⟩

/-- C7: when the rag collaborator raises during /ask, the session is left
unchanged and the response is the fixed 500 Error processing your question;
the response does not depend on the exception text at all. -/
theorem C7_ask_error_masked (s : Session) (m : String) :
    ask_question s (Except.error m) =
      (s, HResponse.err 500 (Value.str "Error processing your question")) ∧
    (∀ m' : String, ask_question s (Except.error m) = ask_question s (Except.error m')) :=
  ⟨rfl, fun _ => rfl⟩

/-- C9: the session conversation id is written only by a successful /ask,
which overwrites any prior value with the new id; an /ask whose rag call
raises leaves the session unchanged, and /feedback never writes the session
in any outcome, including through the authentication wrapper. -/
theorem C9_session_frame (env hdr : Option String) (s : Session) (d : AnswerData)
    (m : String) (fb : Int) (sf : Except String FeedbackResult) :
    (ask_question s (Except.ok d)).1 = some d.id ∧
    (ask_question s (Except.error m)).1 = s ∧
    (process_feedback s fb sf).1 = s ∧
    (handle_feedback env hdr s fb sf).1 = s :=
  ⟨rfl, rfl, rfl, handle_feedback_fst env hdr s fb sf⟩

/-- C4: after a successful /ask, a /feedback call in the same session reads
from the session exactly the conversation id the /ask response returned, any
invocation of the persistence collaborator passes exactly that id and the
submitted feedback value, and the invocation does happen whenever the id is
truthy and the feedback value is valid. -/
theorem C4_round_trip (s : Session) (d : AnswerData) (fb : Int)
    (sf : Except String FeedbackResult) :
    sessionGet (ask_question s (Except.ok d)).1 = some d.id ∧
    (∀ cid f, (process_feedback (ask_question s (Except.ok d)).1 fb sf).2.call =
        some (cid, f) → cid = d.id ∧ f = fb) ∧
    (d.id.isTruthy = true → (fb = -1 ∨ fb = 1) →
        (process_feedback (ask_question s (Except.ok d)).1 fb sf).2.call =
          some (d.id, fb)) := by
  refine ⟨rfl, ?_, ?_⟩
  · intro cid f hcf
    rw [process_feedback_call_eq] at hcf
    by_cases ht : d.id.isTruthy = false
    · rw [show (ask_question s (Except.ok d)).1 = some d.id from rfl] at hcf
      simp only [if_pos ht] at hcf
      exact Option.noConfusion hcf
    · rw [show (ask_question s (Except.ok d)).1 = some d.id from rfl] at hcf
      simp only [if_neg ht] at hcf
      by_cases hm : fb ∉ ([-1, 1] : List Int)
      · simp only [if_pos hm] at hcf
        exact Option.noConfusion hcf
      · simp only [if_neg hm] at hcf
        injection hcf with h
        injection h with h1 h2
        exact ⟨h1.symm, h2.symm⟩
  · intro ht hfb
    rw [process_feedback_call_eq]
    rw [show (ask_question s (Except.ok d)).1 = some d.id from rfl]
    rcases hfb with h | h <;> subst h <;> simp [ht]

/-- C4 witness: at a concrete successful ask, the session holds the returned
id and a feedback call passes exactly that id and value. -/
theorem C4_round_trip_witness :
    sessionGet (ask_question none (Except.ok sampleAnswer)).1 =
      some sampleAnswer.id ∧
    (process_feedback (ask_question none (Except.ok sampleAnswer)).1 1
        (Except.ok ⟨Value.str "success", Value.str "ok"⟩)).2.call =
      some (sampleAnswer.id, 1) := by
  refine ⟨(C4_round_trip none sampleAnswer 1
    (Except.ok ⟨Value.str "success", Value.str "ok"⟩)).1, ?_⟩
  exact (C4_round_trip none sampleAnswer 1
    (Except.ok ⟨Value.str "success", Value.str "ok"⟩)).2.2 (by decide) (Or.inr rfl)

/-- C5: a /feedback request whose session holds a truthy conversation id and
whose feedback value is neither -1 nor 1 is answered 400 with detail
Invalid feedback value. Must be -1 or 1, without invoking the persistence
collaborator and without touching the session. -/
theorem C5_invalid_feedback_value (v : Value) (fb : Int)
    (sf : Except String FeedbackResult) (hv : v.isTruthy = true)
    (h1 : fb ≠ -1) (h2 : fb ≠ 1) :
    process_feedback (some v) fb sf =
      (some v, ⟨none, HResponse.err 400
        (Value.str "Invalid feedback value. Must be -1 or 1")⟩) := by
  have hm : fb ∉ ([-1, 1] : List Int) := by simp [h1, h2]
  have hb : process_feedback_body (some v) fb sf =
      (none, Except.error (PyExn.http 400
        (Value.str "Invalid feedback value. Must be -1 or 1"))) := by
    unfold process_feedback_body
    simp [sessionGet, hv, hm]
  unfold process_feedback
  rw [hb]
  rfl

/-- C5 witness: feedback value 0 on an active session is rejected with the
fixed 400 detail. -/
theorem C5_invalid_feedback_value_witness :
    process_feedback (some (Value.str "conv-1")) 0
        (Except.ok ⟨Value.str "success", Value.str "ok"⟩) =
      (some (Value.str "conv-1"), ⟨none, HResponse.err 400
        (Value.str "Invalid feedback value. Must be -1 or 1")⟩) :=
  C5_invalid_feedback_value (Value.str "conv-1") 0
    (Except.ok ⟨Value.str "success", Value.str "ok"⟩)
    (by decide) (by decide) (by decide)

/-- C6: past the session and value checks, a collaborator result with status
success yields 200 with the fixed success message, and any other status
yields a 500 whose detail is the collaborator message verbatim; either way
the collaborator was invoked with the session id and the feedback value. -/
theorem C6_collaborator_status (v : Value) (fb : Int) (r : FeedbackResult)
    (hv : v.isTruthy = true) (hfb : fb = -1 ∨ fb = 1) :
    (r.status = Value.str "success" →
        process_feedback (some v) fb (Except.ok r) =
          (some v, ⟨some (v, fb), HResponse.ok
            [("message", Value.str "Feedback received and saved successfully")]⟩)) ∧
    (r.status ≠ Value.str "success" →
        process_feedback (some v) fb (Except.ok r) =
          (some v, ⟨some (v, fb), HResponse.err 500 r.message⟩)) := by
  have hm : fb ∈ ([-1, 1] : List Int) := by rcases hfb with h | h <;> simp [h]
  constructor
  · intro hs
    have hb : process_feedback_body (some v) fb (Except.ok r) =
        (some (v, fb), Except.ok
          [("message", Value.str "Feedback received and saved successfully")]) := by
      unfold process_feedback_body
      simp [sessionGet, hv, hm, hs]
    unfold process_feedback
    rw [hb]
    rfl
  · intro hs
    have hb : process_feedback_body (some v) fb (Except.ok r) =
        (some (v, fb), Except.error (PyExn.http 500 r.message)) := by
      unfold process_feedback_body
      simp [sessionGet, hv, hm, hs]
    unfold process_feedback
    rw [hb]
    rfl

/-- C6 witness: at concrete inputs, a success status gives the fixed 200
message and an error status gives a 500 carrying the collaborator message. -/
theorem C6_collaborator_status_witness :
    process_feedback (some (Value.str "conv-1")) 1
        (Except.ok ⟨Value.str "success", Value.str "ok"⟩) =
      (some (Value.str "conv-1"), ⟨some (Value.str "conv-1", 1), HResponse.ok
        [("message", Value.str "Feedback received and saved successfully")]⟩) ∧
    process_feedback (some (Value.str "conv-1")) 1
        (Except.ok ⟨Value.str "error", Value.str "db down"⟩) =
      (some (Value.str "conv-1"), ⟨some (Value.str "conv-1", 1),
        HResponse.err 500 (Value.str "db down")⟩) := by
  constructor
  · exact (C6_collaborator_status (Value.str "conv-1") 1
      ⟨Value.str "success", Value.str "ok"⟩ (by decide) (Or.inr rfl)).1 rfl
  · exact (C6_collaborator_status (Value.str "conv-1") 1
      ⟨Value.str "error", Value.str "db down"⟩ (by decide) (Or.inr rfl)).2 (by decide)

/-- C8: the generic catch block of /feedback re-raises HTTPExceptions
unchanged, so the explicit 400s and the 500 carrying the collaborator
message reach the caller as raised, while every other exception, such as the
persistence collaborator raising, is mapped to the fixed 500 Error
processing your feedback. -/
theorem C8_feedback_propagation (s : Session) (fb : Int)
    (sf : Except String FeedbackResult) :
    (∀ c st d, process_feedback_body s fb sf = (c, Except.error (PyExn.http st d)) →
        (process_feedback s fb sf).2.response = HResponse.err st d) ∧
    (∀ c m, process_feedback_body s fb sf = (c, Except.error (PyExn.other m)) →
        (process_feedback s fb sf).2.response =
          HResponse.err 500 (Value.str "Error processing your feedback")) ∧
    (∀ v m, s = some v → v.isTruthy = true → (fb = -1 ∨ fb = 1) →
        (process_feedback s fb (Except.error m)).2.response =
          HResponse.err 500 (Value.str "Error processing your feedback")) := by
  refine ⟨?_, ?_, ?_⟩
  · intro c st d h
    show feedback_boundary (process_feedback_body s fb sf).2 = _
    rw [h]
    rfl
  · intro c m h
    show feedback_boundary (process_feedback_body s fb sf).2 = _
    rw [h]
    rfl
  · rintro v m rfl hv hfb
    have hm : fb ∈ ([-1, 1] : List Int) := by rcases hfb with h | h <;> simp [h]
    show feedback_boundary (process_feedback_body (some v) fb (Except.error m)).2 = _
    have hb : process_feedback_body (some v) fb (Except.error m) =
        (some (v, fb), Except.error (PyExn.other m)) := by
      unfold process_feedback_body
      simp [sessionGet, hv, hm]
    rw [hb]
    rfl

/-- C8 witness: at concrete inputs, an explicit 400 passes through the catch
block unchanged and a raising collaborator yields the fixed generic 500. -/
theorem C8_feedback_propagation_witness :
    (process_feedback (none : Session) 1
        (Except.ok ⟨Value.str "success", Value.str "ok"⟩)).2.response =
      HResponse.err 400 (Value.str "No active conversation found") ∧
    (process_feedback (some (Value.str "conv-1")) 1
        (Except.error "database connection lost")).2.response =
      HResponse.err 500 (Value.str "Error processing your feedback") := by
  constructor
  · exact (C8_feedback_propagation none 1
      (Except.ok ⟨Value.str "success", Value.str "ok"⟩)).1 none 400
      (Value.str "No active conversation found") rfl
  · exact (C8_feedback_propagation (some (Value.str "conv-1")) 1
      (Except.error "database connection lost")).2.2 (Value.str "conv-1")
      "database connection lost" rfl (by decide) (Or.inr rfl)

/-- C10: the session check of /feedback is a falsiness test, not an absence
test: a session whose conversation id is present but falsy, such as the
empty string or zero, is answered exactly like a missing key, with 400
No active conversation found and no collaborator invocation. -/
theorem C10_falsy_session (v : Value) (fb : Int)
    (sf : Except String FeedbackResult) (hv : v.isTruthy = false) :
    process_feedback (some v) fb sf =
      (some v, ⟨none, HResponse.err 400
        (Value.str "No active conversation found")⟩) ∧
    (process_feedback (some v) fb sf).2 = (process_feedback (none : Session) fb sf).2 := by
  have hb : process_feedback_body (some v) fb sf =
      (none, Except.error (PyExn.http 400
        (Value.str "No active conversation found"))) := by
    unfold process_feedback_body
    simp [sessionGet, hv]
  constructor
  · unfold process_feedback
    rw [hb]
    rfl
  · unfold process_feedback
    rw [hb]
    rfl

/-- C10 witness: the empty string stored as conversation id is rejected like
a missing one. -/
theorem C10_falsy_session_witness :
    process_feedback (some (Value.str "")) 1
        (Except.ok ⟨Value.str "success", Value.str "ok"⟩) =
      (some (Value.str ""), ⟨none, HResponse.err 400
        (Value.str "No active conversation found")⟩) :=
  (C10_falsy_session (Value.str "") 1
    (Except.ok ⟨Value.str "success", Value.str "ok"⟩) (by decide)).1
